import Mathlib

/-!
# Verification of the ROC container action (hanshal101/actions-ci)

Shallow embedding of the three JavaScript entry points of the repository:

* `IndexA.run`   — the first `run` function in `src/index.js` (launch-only variant),
* `IndexB.run`   — the second `run` function in `src/index.js` (full flow:
  launch, monitor, log capture, artifact collection, cleanup),
* `Part000.run`  — the `run` function in `src/unnamed/part_000` (launch plus
  simulated traffic and output printing).

External effects (the `docker` binary, the filesystem, the Actions input
store) are modelled by an explicit environment `Env` of oracles, and each run
produces a `Trace` of observable events: external process invocations, file
writes, `core.setFailed`, `core.warning` and `core.setOutput` calls.

Library calls are modelled after their documented behaviour:

* `core.getInput`: returns the raw input value trimmed of surrounding
  whitespace; with `required: true` it throws
  `Input required and not supplied: <name>` when the raw value is empty.
* `exec.exec`: resolves to an exit code or rejects with an error; both
  behaviours are chosen by the oracle (`ExecRes.result`), so every branch the
  source code writes for exit codes and for thrown errors is reachable.
* `fs-extra` operations resolve or reject according to the oracle.
-/

/-- Simplified model of node `path.join` on two segments. -/
def pathJoin (a b : String) : String :=
  if a = "" then b else if b = "" then a else a ++ "/" ++ b

/-- Model of the JavaScript `String.prototype.trim` (strips surrounding
whitespace), written by structural recursion so that concrete runs reduce
inside the kernel. -/
def jsTrim (s : String) : String :=
  String.mk (((s.data.dropWhile Char.isWhitespace).reverse.dropWhile Char.isWhitespace).reverse)

/-- Splitting a character list at every occurrence of the separator `c`;
always returns at least one (possibly empty) fragment, like the JavaScript
`String.prototype.split` with a one-character separator. -/
def splitOnCharAux (c : Char) : List Char → List (List Char)
  | [] => [[]]
  | x :: xs =>
    match splitOnCharAux c xs with
    | [] => [[]]
    | h :: t => if x = c then [] :: (h :: t) else (x :: h) :: t

/-- Model of the JavaScript `split` with a one-character separator. -/
def jsSplitOn (c : Char) (s : String) : List String := (splitOnCharAux c s.data).map String.mk

/-- When `pat` leads `s`, `stripLead pat s` is the remainder of `s`. -/
def stripLead : List Char → List Char → Option (List Char)
  | [], s => some s
  | _, [] => none
  | p :: ps, c :: cs => if c = p then stripLead ps cs else none

def replaceOnceAux (pat rep : List Char) : List Char → List Char
  | [] => []
  | c :: cs =>
    match stripLead pat (c :: cs) with
    | some rest => rep ++ rest
    | none => c :: replaceOnceAux pat rep cs

/-- Model of the JavaScript `String.prototype.replace` with a nonempty string
pattern: replaces only the first occurrence of `pat` by `rep`. -/
def jsReplaceOnce (s pat rep : String) : String :=
  String.mk (replaceOnceAux pat.data rep.data s.data)

/-- Model of the JavaScript `Array.prototype.join`. -/
def jsJoin (sep : String) : List String → String
  | [] => ""
  | [x] => x
  | x :: y :: rest => x ++ sep ++ jsJoin sep (y :: rest)

/-- Message of the `TypeError` node throws when `path.join` receives
`undefined` (the case `GITHUB_WORKSPACE` unset in the launch-only variants). -/
def pathTypeError : String :=
  "The \"path\" argument must be of type string. Received undefined"

/-- Observable events of a run. `exec args` is an invocation of the `docker`
binary with argument vector `args` (the leading `"docker"` tool name is not
part of `args`). `write p c` is a completed `fs.writeFile` of content `c` to
path `p`. The remaining constructors are the `@actions/core` calls
`setFailed`, `warning` and `setOutput`. -/
inductive Event where
  | exec (args : List String)
  | write (path content : String)
  | setFailed (msg : String)
  | warning (msg : String)
  | setOutput (key value : String)
  deriving DecidableEq, Repr

abbrev Trace := List Event

def isExec : Event → Bool
  | Event.exec _ => true
  | _ => false

/-- Number of external process invocations in a trace (used to index the
oracle: the `n`-th invocation of a run gets the oracle answer for `n`). -/
def execCount (t : Trace) : Nat := (t.filter isExec).length

/-- The docker subcommand (first argument) of every `exec` event, in order. -/
def execHeads (t : Trace) : List String :=
  t.filterMap fun e =>
    match e with
    | Event.exec a => a.head?
    | _ => none

/-- Full argument vectors of the `exec` events of a trace, in order. -/
def execArgs (t : Trace) : List (List String) :=
  t.filterMap fun e =>
    match e with
    | Event.exec a => some a
    | _ => none

/-- How many invocations of a trace use docker subcommand `h`. -/
def countExec (h : String) (t : Trace) : Nat := (execHeads t).count h

/-- The messages of the `setFailed` events of a trace, in order. -/
def failedMsgs (t : Trace) : List String :=
  t.filterMap fun e =>
    match e with
    | Event.setFailed m => some m
    | _ => none

/-- Outcome of one `exec.exec` call: the promise either resolves with an exit
code or rejects with an error message; `stdout`/`stderr` is what the stdout
and stderr listeners receive. -/
structure ExecRes where
  result : Except String Nat
  stdout : String
  stderr : String

/-- The environment a run executes in: the Actions input store (absent inputs
are the empty string, like unset `INPUT_*` variables), `GITHUB_WORKSPACE`,
and oracles for every docker invocation and filesystem operation. The docker
oracle is indexed by the position of the invocation in the run and by its
argument vector. -/
structure Env where
  inputs : String → String
  workspace : Option String
  execRes : Nat → List String → ExecRes
  existsSync : String → Bool
  pathExists : String → Except String Bool
  ensureDir : String → Except String Unit
  writeFile : String → Except String Unit
  readFile : String → Except String String
  readdir : String → Except String (List String)

/-- Model of `core.getInput(name)` with the required option set: throws when
the raw value is empty, otherwise returns the value trimmed of surrounding
whitespace. -/
def requiredInput (env : Env) (name : String) : Except String String :=
  let raw := env.inputs name
  if raw = "" then Except.error ("Input required and not supplied: " ++ name)
  else Except.ok (jsTrim raw)

/-- Model of the idiom `core.getInput(name) || deflt`: the trimmed value when
it is nonempty, the default otherwise. -/
def optionalInput (env : Env) (name deflt : String) : String :=
  let v := jsTrim (env.inputs name)
  if v = "" then deflt else v

namespace IndexA

/-- The `dockerRunCmd` array of the launch-only variant
(`src/index.js` lines 65–96), including the trailing
`.filter((arg) => arg !== "")`. -/
def dockerRunCmd (libsslHostPath libcryptoHostPath containerName hostOutputDir hostConfigDir
    extraDockerArgs dockerImage serverUrl apiKey : String) : List String :=
  (["docker", "run", "-d", "--name", containerName, "--privileged", "--pid=host",
      "--network=host",
      "-v", "/proc:/proc",
      "-v", "/sys:/sys",
      "-v", libsslHostPath ++ ":/usr/lib64/libssl.so.3",
      "-v", libcryptoHostPath ++ ":/usr/lib64/libcrypto.so.3",
      "-v", hostOutputDir ++ ":/tmp/roc-output",
      "-v", hostConfigDir ++ ":/tmp/roc-config:ro"]
    ++ jsSplitOn ' ' extraDockerArgs
    ++ [dockerImage, "--server-url", serverUrl, "--api-key", apiKey,
        "--patterns", "/tmp/roc-config/pattern.yaml", "--watch", "/tmp/roc-output"]).filter
    (fun arg => decide (arg ≠ ""))

/-- The launch-only `run` (`src/index.js` lines 7–123). -/
def run (env : Env) : Trace :=
  match requiredInput env "patterns_yaml" with
  | Except.error m => [Event.setFailed m]
  | Except.ok patternsYamlContent =>
  match requiredInput env "docker_image" with
  | Except.error m => [Event.setFailed m]
  | Except.ok dockerImage =>
  match requiredInput env "server_url" with
  | Except.error m => [Event.setFailed m]
  | Except.ok serverUrl =>
  match requiredInput env "api_key" with
  | Except.error m => [Event.setFailed m]
  | Except.ok apiKey =>
    let libsslHostPath := optionalInput env "libssl_host_path" "/lib/x86_64-linux-gnu/libssl.so.3"
    let libcryptoHostPath :=
      optionalInput env "libcrypto_host_path" "/lib/x86_64-linux-gnu/libcrypto.so.3"
    let containerName := optionalInput env "container_name" "roc-action-container"
    let outputDirHostPath := optionalInput env "output_dir_host_path" "./roc-action-output"
    let extraDockerArgs := optionalInput env "extra_docker_args" ""
    match env.workspace with
    | none => [Event.setFailed pathTypeError]
    | some ws =>
      let hostConfigDir := pathJoin ws "roc-config-action"
      let hostOutputDir := pathJoin ws (jsReplaceOnce outputDirHostPath "./" "")
      match env.ensureDir hostConfigDir with
      | Except.error m => [Event.setFailed m]
      | Except.ok _ =>
      match env.ensureDir hostOutputDir with
      | Except.error m => [Event.setFailed m]
      | Except.ok _ =>
        let hostPatternFilePath := pathJoin hostConfigDir "pattern.yaml"
        match env.writeFile hostPatternFilePath with
        | Except.error m => [Event.setFailed m]
        | Except.ok _ =>
          let t1 : Trace := [Event.write hostPatternFilePath patternsYamlContent]
          let cmd := dockerRunCmd libsslHostPath libcryptoHostPath containerName hostOutputDir
            hostConfigDir extraDockerArgs dockerImage serverUrl apiKey
          let res := env.execRes (execCount t1) (cmd.drop 1)
          let t2 := t1 ++ [Event.exec (cmd.drop 1)]
          match res.result with
          | Except.error m => t2 ++ [Event.setFailed m]
          | Except.ok code =>
            if code ≠ 0 then
              t2 ++ [Event.setFailed ("Docker run failed with exit code " ++ toString code)]
            else
              t2 ++ [Event.setOutput "container_name" containerName]

end IndexA

namespace IndexB

/-- Argument vector of one status poll
(`src/index.js` lines 298–308): `docker inspect --format {{.State.Status}}`. -/
def inspectArgs (cid : String) : List String :=
  ["inspect", "--format", "\x7b\x7b.State.Status\x7d\x7d", cid]

/-- The function `checkSslLibraries` (`src/index.js` lines 269–288). Returns the extended
trace and whether both libraries were found; a thrown filesystem error is
caught and reported as a warning. -/
def checkSslLibraries (env : Env) (sslLibPath sslLibVersion : String) (t : Trace) :
    Trace × Bool :=
  let sslPath := pathJoin sslLibPath ("libssl.so." ++ sslLibVersion)
  let cryptoPath := pathJoin sslLibPath ("libcrypto.so." ++ sslLibVersion)
  match env.pathExists sslPath with
  | Except.error m => (t ++ [Event.warning ("Error checking SSL libraries: " ++ m)], false)
  | Except.ok sslExists =>
  match env.pathExists cryptoPath with
  | Except.error m => (t ++ [Event.warning ("Error checking SSL libraries: " ++ m)], false)
  | Except.ok cryptoExists =>
    if sslExists && cryptoExists then (t, true)
    else (t ++ [Event.warning ("SSL libraries not found: " ++ sslPath ++ ", " ++ cryptoPath)],
      false)

/-- The `sslArgs` bind-mount fragment (`src/index.js` lines 180–188). -/
def sslArgsOf (sslLibExists : Bool) (sslLibPath sslLibVersion : String) : List String :=
  if sslLibExists then
    ["-v", sslLibPath ++ "/libssl.so." ++ sslLibVersion ++ ":/usr/lib64/libssl.so."
        ++ sslLibVersion,
     "-v", sslLibPath ++ "/libcrypto.so." ++ sslLibVersion ++ ":/usr/lib64/libcrypto.so."
        ++ sslLibVersion]
  else []

/-- The `dockerArgs` array of the full-flow variant (`src/index.js`
lines 191–222), including the conditional push of `additional-args`. -/
def dockerArgs (ws outputDir configDir dockerImage serverUrl apiKey patterns : String)
    (sslArgs : List String) (additionalArgs : String) : List String :=
  let base :=
    ["run", "-d", "--name", "roc-test", "--privileged", "--pid=host", "--network=host",
      "-v", "/proc:/proc",
      "-v", "/sys:/sys"]
    ++ sslArgs
    ++ ["-v", ws ++ "/" ++ outputDir ++ ":/tmp/roc-output",
        "-v", ws ++ "/" ++ configDir ++ ":/tmp/roc-config:ro",
        dockerImage, "--server-url", serverUrl, "--api-key", apiKey,
        "--patterns", "/tmp/roc-config/" ++ patterns,
        "--watch", "/tmp/roc-output"]
  if jsTrim additionalArgs ≠ "" then base ++ jsSplitOn ' ' (jsTrim additionalArgs) else base

/-- The polling loop of `monitorContainer` (`src/index.js` lines 294–324):
up to `fuel` inspections; stops at the first `running` or `exited` status and
at the first inspection failure (caught, warned about, loop broken). -/
def monitorLoop (env : Env) (cid : String) : Nat → Trace → Trace
  | 0, t => t
  | Nat.succ n, t =>
    let res := env.execRes (execCount t) (inspectArgs cid)
    let t1 := t ++ [Event.exec (inspectArgs cid)]
    match res.result with
    | Except.error m => t1 ++ [Event.warning ("Could not inspect container: " ++ m)]
    | Except.ok _ =>
      let status := jsTrim res.stdout
      if status = "running" then t1
      else if status = "exited" then t1 ++ [Event.warning "ROC container has exited"]
      else monitorLoop env cid n t1

/-- The function `monitorContainer` (`src/index.js` lines 290–328): the 30-iteration poll
followed by one uncaught `docker logs` invocation whose failure propagates to
the caller. -/
def monitorContainer (env : Env) (cid : String) (t : Trace) : Trace × Except String Unit :=
  let t1 := monitorLoop env cid 30 t
  let res := env.execRes (execCount t1) ["logs", cid]
  let t2 := t1 ++ [Event.exec ["logs", cid]]
  match res.result with
  | Except.error m => (t2, Except.error m)
  | Except.ok _ => (t2, Except.ok ())

/-- The function `getOutputFiles` (`src/index.js` lines 330–338): the names in the output
directory joined by newlines; a read failure yields a warning and `""`. -/
def getOutputFiles (env : Env) (dir : String) (t : Trace) : Trace × String :=
  match env.readdir dir with
  | Except.ok files => (t, jsJoin "\n" files)
  | Except.error m => (t ++ [Event.warning ("Could not read output directory: " ++ m)], "")

/-- The function `getContainerLogs` (`src/index.js` lines 340–358): one `docker logs`
invocation capturing stdout and stderr; a failure yields a warning and `""`. -/
def getContainerLogs (env : Env) (cid : String) (t : Trace) : Trace × String :=
  let res := env.execRes (execCount t) ["logs", cid]
  let t1 := t ++ [Event.exec ["logs", cid]]
  match res.result with
  | Except.error m => (t1 ++ [Event.warning ("Could not get container logs: " ++ m)], "")
  | Except.ok _ => (t1, res.stdout ++ res.stderr)

/-- The function `cleanupContainer` (`src/index.js` lines 360–378): `docker stop roc-test`
then `docker rm roc-test`, both with `ignoreReturnCode: true` (a nonzero exit
code resolves normally); a rejected promise is caught and reported as a
warning, which skips the rest of the function. -/
def cleanupContainer (env : Env) (t : Trace) : Trace :=
  let res := env.execRes (execCount t) ["stop", "roc-test"]
  let t1 := t ++ [Event.exec ["stop", "roc-test"]]
  match res.result with
  | Except.error m => t1 ++ [Event.warning ("Cleanup error: " ++ m)]
  | Except.ok _ =>
    let res2 := env.execRes (execCount t1) ["rm", "roc-test"]
    let t2 := t1 ++ [Event.exec ["rm", "roc-test"]]
    match res2.result with
    | Except.error m => t2 ++ [Event.warning ("Cleanup error: " ++ m)]
    | Except.ok _ => t2

/-- The `try` block of the full-flow `run` (`src/index.js` lines 130–259).
Returns the trace of the block together with `Except.error m` when the block
throws (to be routed to the `catch`). -/
def mainFlow (env : Env) : Trace × Except String Unit :=
  match requiredInput env "server-url", requiredInput env "api-key",
      requiredInput env "patterns" with
  | Except.error m, _, _ => ([], Except.error m)
  | Except.ok _, Except.error m, _ => ([], Except.error m)
  | Except.ok _, Except.ok _, Except.error m => ([], Except.error m)
  | Except.ok serverUrl, Except.ok apiKey, Except.ok patterns =>
    let configDir := optionalInput env "config-dir" "roc-config"
    let outputDir := optionalInput env "output-dir" "roc-output"
    let dockerImage := optionalInput env "docker-image" "hanshal785/roc:v5"
    let additionalArgs := optionalInput env "additional-args" ""
    let sslLibPath := optionalInput env "ssl-lib-path" "/lib/x86_64-linux-gnu"
    let sslLibVersion := optionalInput env "ssl-lib-version" "3"
    let ws :=
      match env.workspace with
      | none => "."
      | some w => if w = "" then "." else w
    let patternFilePath := pathJoin (pathJoin ws configDir) patterns
    if env.existsSync patternFilePath then
      match env.readFile patternFilePath with
      | Except.error m => ([], Except.error m)
      | Except.ok _patternContent =>
        let ssl := checkSslLibraries env sslLibPath sslLibVersion []
        let sslLibExists := ssl.2
        let t2 :=
          if sslLibExists then ssl.1
          else ssl.1 ++ [Event.warning ("SSL libraries not found at " ++ sslLibPath
            ++ ". ROC may fail to start.")]
        match env.ensureDir outputDir with
        | Except.error m => (t2, Except.error m)
        | Except.ok _ =>
        match env.ensureDir configDir with
        | Except.error m => (t2, Except.error m)
        | Except.ok _ =>
          let args := dockerArgs ws outputDir configDir dockerImage serverUrl apiKey patterns
            (sslArgsOf sslLibExists sslLibPath sslLibVersion) additionalArgs
          let res := env.execRes (execCount t2) args
          let t3 := t2 ++ [Event.exec args]
          match res.result with
          | Except.error m => (t3, Except.error m)
          | Except.ok code =>
            if code ≠ 0 then
              (t3, Except.error ("Failed to start ROC container. Exit code: " ++ toString code))
            else
              let psArgs := ["ps", "-q", "--filter", "name=roc-test"]
              let resPs := env.execRes (execCount t3) psArgs
              let t4 := t3 ++ [Event.exec psArgs]
              match resPs.result with
              | Except.error m => (t4, Except.error m)
              | Except.ok _ =>
                let containerId := jsTrim resPs.stdout
                let t5 := t4 ++ [Event.setOutput "container-id" containerId]
                let mc := monitorContainer env containerId t5
                match mc.2 with
                | Except.error m => (mc.1, Except.error m)
                | Except.ok _ =>
                  let gof := getOutputFiles env outputDir mc.1
                  let t8 := gof.1 ++ [Event.setOutput "output-files" gof.2]
                  let gcl := getContainerLogs env containerId t8
                  (gcl.1 ++ [Event.setOutput "logs" gcl.2], Except.ok ())
    else
      ([], Except.error ("Pattern file does not exist: " ++ patternFilePath))

/-- The trace of the full-flow `run` up to (not including) the `finally`
block: the `try` block plus, when it threw, the `setFailed` recorded by the
`catch` block. -/
def preCleanup (env : Env) : Trace :=
  match mainFlow env with
  | (t, Except.ok _) => t
  | (t, Except.error m) => t ++ [Event.setFailed m]

/-- The full-flow `run` (`src/index.js` lines 130–267):
try / catch / finally-cleanup. -/
def run (env : Env) : Trace :=
  cleanupContainer env (preCleanup env)

end IndexB

namespace Part000

/-- The `dockerRunCmd` array of the traffic variant
(`src/unnamed/part_000` lines 54–85), including the trailing
`.filter((arg) => arg !== "")`. -/
def dockerRunCmd (containerName hostOutputDir hostConfigDir extraDockerArgs dockerImage
    serverUrl apiKey : String) : List String :=
  (["docker", "run", "-d", "--name", containerName, "--privileged", "--pid=host",
      "--network=host",
      "-v", "/proc:/proc",
      "-v", "/sys:/sys",
      "-v", "/lib/x86_64-linux-gnu/libssl.so.3:/usr/lib64/libssl.so.3",
      "-v", "/lib/x86_64-linux-gnu/libcrypto.so.3:/usr/lib64/libcrypto.so.3",
      "-v", hostOutputDir ++ ":/tmp/roc-output",
      "-v", hostConfigDir ++ ":/tmp/roc-config:ro"]
    ++ jsSplitOn ' ' extraDockerArgs
    ++ [dockerImage, "--server-url", serverUrl, "--api-key", apiKey,
        "--patterns", "/tmp/roc-config/pattern.yaml", "--watch", "/tmp/roc-output"]).filter
    (fun arg => decide (arg ≠ ""))

/-- The shell payload of the first `docker exec` traffic simulation
(`src/unnamed/part_000` line 110). -/
def simulateScript : String :=
  "find / -name \"libssl.so*\" 2>/dev/null; ldd $(which curl); echo \"Generating curl traffic...\"; curl -s https://example.com > /dev/null || true; curl -s -X POST \"https://httpbin.org/post?test=12345667788764\" -H \"Content-Type: application/json\" -d \x27\x7b\"data\":\"12345667788764\"\x7d\x27 > /dev/null || true"

/-- The shell payload of the second `docker exec` traffic simulation
(`src/unnamed/part_000` line 127). -/
def moreTrafficScript : String :=
  "curl -X POST \"https://example.com?more=12345667788764\" -H \"Content-Type: application/json\" -d \x27\x7b\"info\":\"12345667788764\"\x7d\x27 > /dev/null || true"

/-- The output-file printing loop (`src/unnamed/part_000` lines 140–145):
reads each file in order; the first read failure throws out of the loop. -/
def printFiles (env : Env) (dir : String) : List String → Except String Unit
  | [] => Except.ok ()
  | f :: fs =>
    match env.readFile (pathJoin dir f) with
    | Except.error m => Except.error m
    | Except.ok _ => printFiles env dir fs

/-- The steps of the traffic variant after a successful launch
(`src/unnamed/part_000` lines 99–151): traffic, logs, more traffic, logs,
output-file listing and printing, `setOutput`. Throws to the catch of the caller. -/
def afterLaunch (env : Env) (containerName hostOutputDir : String) (t : Trace) :
    Trace × Except String Unit :=
  let simulateCmd := ["exec", containerName, "sh", "-c", simulateScript]
  let res1 := env.execRes (execCount t) simulateCmd
  let t1 := t ++ [Event.exec simulateCmd]
  match res1.result with
  | Except.error m => (t1, Except.error m)
  | Except.ok _ =>
  let res2 := env.execRes (execCount t1) ["logs", containerName]
  let t2 := t1 ++ [Event.exec ["logs", containerName]]
  match res2.result with
  | Except.error m => (t2, Except.error m)
  | Except.ok _ =>
  let moreTrafficCmd := ["exec", containerName, "sh", "-c", moreTrafficScript]
  let res3 := env.execRes (execCount t2) moreTrafficCmd
  let t3 := t2 ++ [Event.exec moreTrafficCmd]
  match res3.result with
  | Except.error m => (t3, Except.error m)
  | Except.ok _ =>
  let res4 := env.execRes (execCount t3) ["logs", containerName]
  let t4 := t3 ++ [Event.exec ["logs", containerName]]
  match res4.result with
  | Except.error m => (t4, Except.error m)
  | Except.ok _ =>
  match env.readdir hostOutputDir with
  | Except.error m => (t4, Except.error m)
  | Except.ok outputFiles =>
  match printFiles env hostOutputDir outputFiles with
  | Except.error m => (t4, Except.error m)
  | Except.ok _ =>
    (t4 ++ [Event.setOutput "container_name" containerName], Except.ok ())

/-- The traffic variant `run` (`src/unnamed/part_000` lines 8–157). -/
def run (env : Env) : Trace :=
  match requiredInput env "patterns_yaml" with
  | Except.error m => [Event.setFailed m]
  | Except.ok patternsYamlContent =>
  match requiredInput env "docker_image" with
  | Except.error m => [Event.setFailed m]
  | Except.ok dockerImage =>
  match requiredInput env "server_url" with
  | Except.error m => [Event.setFailed m]
  | Except.ok serverUrl =>
  match requiredInput env "api_key" with
  | Except.error m => [Event.setFailed m]
  | Except.ok apiKey =>
    let containerName := optionalInput env "container_name" "roc-action-container"
    let outputDirHostPath := optionalInput env "output_dir_host_path" "./roc-action-output"
    let extraDockerArgs := optionalInput env "extra_docker_args" ""
    match env.workspace with
    | none => [Event.setFailed pathTypeError]
    | some ws =>
      let hostConfigDir := pathJoin ws "roc-config-action"
      let hostOutputDir := pathJoin ws (jsReplaceOnce outputDirHostPath "./" "")
      match env.ensureDir hostConfigDir with
      | Except.error m => [Event.setFailed m]
      | Except.ok _ =>
      match env.ensureDir hostOutputDir with
      | Except.error m => [Event.setFailed m]
      | Except.ok _ =>
        let hostPatternFilePath := pathJoin hostConfigDir "pattern.yaml"
        match env.writeFile hostPatternFilePath with
        | Except.error m => [Event.setFailed m]
        | Except.ok _ =>
          let t1 : Trace := [Event.write hostPatternFilePath patternsYamlContent]
          let cmd := dockerRunCmd containerName hostOutputDir hostConfigDir extraDockerArgs
            dockerImage serverUrl apiKey
          let res := env.execRes (execCount t1) (cmd.drop 1)
          let t2 := t1 ++ [Event.exec (cmd.drop 1)]
          match res.result with
          | Except.error m => t2 ++ [Event.setFailed m]
          | Except.ok code =>
            if code ≠ 0 then
              t2 ++ [Event.setFailed ("Docker run failed with exit code " ++ toString code)]
            else
              let al := afterLaunch env containerName hostOutputDir t2
              match al.2 with
              | Except.error m => al.1 ++ [Event.setFailed m]
              | Except.ok _ => al.1

end Part000

/-- Is the event a completed file write? -/
def isWrite : Event → Bool
  | Event.write _ _ => true
  | _ => false

namespace IndexB

/-- The `j`-th docker invocation of a run resolved (did not reject). -/
def inspectResultOk (env : Env) (cid : String) (j : Nat) : Prop :=
  ∃ c, (env.execRes j (inspectArgs cid)).result = Except.ok c

/-- The trimmed stdout the status poll at invocation index `j` observes. -/
def inspectStatus (env : Env) (cid : String) (j : Nat) : String :=
  jsTrim ((env.execRes j (inspectArgs cid)).stdout)

/-- The two statuses the monitor loop treats as terminal. -/
def terminalStatus (s : String) : Prop := s = "running" ∨ s = "exited"

end IndexB

/-! Concrete environments used as witnesses and counterexamples. -/

/-- A benign baseline environment: no inputs set, workspace defined, every
docker call resolves with exit code 0 and empty output, every filesystem
operation succeeds. -/
def baseEnv : Env where
  inputs := fun _ => ""
  workspace := some "/ws"
  execRes := fun _ _ => { result := Except.ok 0, stdout := "", stderr := "" }
  existsSync := fun _ => true
  pathExists := fun _ => Except.ok true
  ensureDir := fun _ => Except.ok ()
  writeFile := fun _ => Except.ok ()
  readFile := fun _ => Except.ok ""
  readdir := fun _ => Except.ok []

/-- Inputs for the full-flow variant: the three required inputs set, all
optional inputs absent. -/
def inputsB : String → String := fun n =>
  if n = "server-url" then "https://x" else
  if n = "api-key" then "k" else
  if n = "patterns" then "p.yaml" else ""

/-- Inputs for the launch-only and traffic variants: the four required inputs
set (the patterns document carries a trailing newline), optional inputs
absent. -/
def inputsA : String → String := fun n =>
  if n = "patterns_yaml" then "a: 1\n" else
  if n = "docker_image" then "img" else
  if n = "server_url" then "https://x" else
  if n = "api_key" then "k" else ""

/-- Full-flow environment in which the container never leaves status
`created`: every docker call resolves with code 0 and stdout `created`. -/
def envPoll : Env :=
  { baseEnv with
    inputs := inputsB,
    execRes := fun _ _ => { result := Except.ok 0, stdout := "created", stderr := "" } }

/-- Environment with no inputs supplied and every docker invocation
rejecting (for instance the docker binary is absent). -/
def envAllErr : Env :=
  { baseEnv with
    execRes := fun _ _ =>
      { result := Except.error "spawn docker ENOENT", stdout := "", stderr := "" } }

/-- Launch-only / traffic environment on the happy path. -/
def envHappyA : Env := { baseEnv with inputs := inputsA }

/-- Full-flow environment on the happy path, with a `container-name`-style
input supplied (both spelling variants) and a container id on `ps` stdout;
the first status poll reports `running`. -/
def envNamed : Env :=
  { baseEnv with
    inputs := fun n =>
      if n = "container-name" then "custom-name" else
      if n = "container_name" then "custom-name" else inputsB n,
    execRes := fun _ a =>
      if a.head? = some "ps" then { result := Except.ok 0, stdout := "cid123\n", stderr := "" }
      else { result := Except.ok 0, stdout := "running", stderr := "" } }

/-- Environment whose launch invocation (the first docker call) resolves
with exit code 1; later calls resolve with 0. -/
def envLaunchFail : Env :=
  { baseEnv with
    inputs := fun n => inputsA n ++ (if n = "server-url" ∨ n = "api-key" ∨ n = "patterns" then inputsB n else ""),
    execRes := fun j _ =>
      if j = 0 then { result := Except.ok 1, stdout := "", stderr := "" }
      else { result := Except.ok 0, stdout := "", stderr := "" } }

/-- Traffic-variant environment in which reading the output directory fails
with a permission error; everything else succeeds. -/
def envReaddirErr : Env :=
  { baseEnv with
    inputs := inputsA,
    readdir := fun _ => Except.error "EACCES: permission denied, scandir" }

/-- Environment whose status polls report `created` once and then `running`:
the monitor should stop after the second inspection. -/
def envSecondRunning : Env :=
  { baseEnv with
    execRes := fun j _ =>
      { result := Except.ok 0, stdout := if j = 0 then "created" else "running",
        stderr := "" } }

section TraceLemmas

@[simp] lemma execHeads_nil : execHeads [] = [] := rfl

@[simp] lemma execHeads_append (s t : Trace) :
    execHeads (s ++ t) = execHeads s ++ execHeads t :=
  List.filterMap_append ..

@[simp] lemma execHeads_exec (a : List String) (t : Trace) :
    execHeads (Event.exec a :: t) = a.head?.toList ++ execHeads t := by
  cases a <;> simp [execHeads, List.filterMap_cons]

@[simp] lemma execHeads_write (p c : String) (t : Trace) :
    execHeads (Event.write p c :: t) = execHeads t := by
  simp [execHeads, List.filterMap_cons]

@[simp] lemma execHeads_setFailed (m : String) (t : Trace) :
    execHeads (Event.setFailed m :: t) = execHeads t := by
  simp [execHeads, List.filterMap_cons]

@[simp] lemma execHeads_warning (m : String) (t : Trace) :
    execHeads (Event.warning m :: t) = execHeads t := by
  simp [execHeads, List.filterMap_cons]

@[simp] lemma execHeads_setOutput (k v : String) (t : Trace) :
    execHeads (Event.setOutput k v :: t) = execHeads t := by
  simp [execHeads, List.filterMap_cons]

@[simp] lemma failedMsgs_nil : failedMsgs [] = [] := rfl

@[simp] lemma failedMsgs_append (s t : Trace) :
    failedMsgs (s ++ t) = failedMsgs s ++ failedMsgs t :=
  List.filterMap_append ..

@[simp] lemma failedMsgs_exec (a : List String) (t : Trace) :
    failedMsgs (Event.exec a :: t) = failedMsgs t := by
  simp [failedMsgs, List.filterMap_cons]

@[simp] lemma failedMsgs_write (p c : String) (t : Trace) :
    failedMsgs (Event.write p c :: t) = failedMsgs t := by
  simp [failedMsgs, List.filterMap_cons]

@[simp] lemma failedMsgs_setFailed (m : String) (t : Trace) :
    failedMsgs (Event.setFailed m :: t) = m :: failedMsgs t := by
  simp [failedMsgs, List.filterMap_cons]

@[simp] lemma failedMsgs_warning (m : String) (t : Trace) :
    failedMsgs (Event.warning m :: t) = failedMsgs t := by
  simp [failedMsgs, List.filterMap_cons]

@[simp] lemma failedMsgs_setOutput (k v : String) (t : Trace) :
    failedMsgs (Event.setOutput k v :: t) = failedMsgs t := by
  simp [failedMsgs, List.filterMap_cons]

@[simp] lemma execCount_nil : execCount [] = 0 := rfl

@[simp] lemma execCount_append (s t : Trace) :
    execCount (s ++ t) = execCount s + execCount t := by
  simp [execCount, List.filter_append]

@[simp] lemma execCount_exec (a : List String) (t : Trace) :
    execCount (Event.exec a :: t) = execCount t + 1 := by
  simp [execCount, List.filter_cons, isExec]

@[simp] lemma execCount_write (p c : String) (t : Trace) :
    execCount (Event.write p c :: t) = execCount t := by
  simp [execCount, List.filter_cons, isExec]

@[simp] lemma execCount_setFailed (m : String) (t : Trace) :
    execCount (Event.setFailed m :: t) = execCount t := by
  simp [execCount, List.filter_cons, isExec]

@[simp] lemma execCount_warning (m : String) (t : Trace) :
    execCount (Event.warning m :: t) = execCount t := by
  simp [execCount, List.filter_cons, isExec]

@[simp] lemma execCount_setOutput (k v : String) (t : Trace) :
    execCount (Event.setOutput k v :: t) = execCount t := by
  simp [execCount, List.filter_cons, isExec]

lemma countExec_append (h : String) (s t : Trace) :
    countExec h (s ++ t) = countExec h s + countExec h t := by
  simp [countExec, List.count_append]

@[simp] lemma countExec_nil (h : String) : countExec h [] = 0 := rfl

end TraceLemmas

section TraceCons

@[simp] lemma countExec_exec_cons (h x : String) (xs : List String) (t : Trace) :
    countExec h (Event.exec (x :: xs) :: t) = countExec h t + (if x = h then 1 else 0) := by
  simp [countExec, List.count_cons]

@[simp] lemma countExec_write_cons (h p c : String) (t : Trace) :
    countExec h (Event.write p c :: t) = countExec h t := by
  simp [countExec]

@[simp] lemma countExec_setFailed_cons (h m : String) (t : Trace) :
    countExec h (Event.setFailed m :: t) = countExec h t := by
  simp [countExec]

@[simp] lemma countExec_warning_cons (h m : String) (t : Trace) :
    countExec h (Event.warning m :: t) = countExec h t := by
  simp [countExec]

@[simp] lemma countExec_setOutput_cons (h k v : String) (t : Trace) :
    countExec h (Event.setOutput k v :: t) = countExec h t := by
  simp [countExec]

lemma countExec_le_execCount (h : String) (t : Trace) : countExec h t ≤ execCount t := by
  induction t with
  | nil => simp
  | cons e rest ih =>
    cases e with
    | exec a =>
      cases a with
      | nil => simpa [countExec, execHeads, List.filterMap_cons, execCount, List.filter_cons,
          isExec] using Nat.le_succ_of_le ih
      | cons x xs =>
        simp only [countExec_exec_cons, execCount_exec]
        split <;> omega
    | write p c => simpa using ih
    | setFailed m => simpa using ih
    | warning m => simpa using ih
    | setOutput k v => simpa using ih

end TraceCons

namespace IndexB

lemma dockerArgs_head (ws outputDir configDir dockerImage serverUrl apiKey patterns : String)
    (sslArgs : List String) (additionalArgs : String) :
    (dockerArgs ws outputDir configDir dockerImage serverUrl apiKey patterns sslArgs
      additionalArgs).head? = some "run" := by
  unfold dockerArgs
  split <;> rfl

lemma checkSsl_countExec (env : Env) (p v : String) (t : Trace) (h : String) :
    countExec h (checkSslLibraries env p v t).1 = countExec h t := by
  simp only [checkSslLibraries]
  split
  · simp [countExec_append]
  · split
    · simp [countExec_append]
    · split <;> simp [countExec_append]

lemma checkSsl_failedMsgs (env : Env) (p v : String) (t : Trace) :
    failedMsgs (checkSslLibraries env p v t).1 = failedMsgs t := by
  simp only [checkSslLibraries]
  split
  · simp
  · split
    · simp
    · split <;> simp

lemma checkSsl_execCount (env : Env) (p v : String) (t : Trace) :
    execCount (checkSslLibraries env p v t).1 = execCount t := by
  simp only [checkSslLibraries]
  split
  · simp
  · split
    · simp
    · split <;> simp

lemma monitorLoop_countExec_inspect (env : Env) (cid : String) :
    ∀ (fuel : Nat) (t : Trace),
      countExec "inspect" (monitorLoop env cid fuel t) ≤ countExec "inspect" t + fuel := by
  intro fuel
  induction fuel with
  | zero => intro t; simp [monitorLoop]
  | succ n ih =>
    intro t
    simp only [monitorLoop]
    split
    case h_1 => simp [countExec_append, inspectArgs]
    case h_2 =>
      split
      case isTrue => simp [countExec_append, inspectArgs]
      case isFalse =>
        split
        case isTrue => simp [countExec_append, inspectArgs]
        case isFalse =>
          calc countExec "inspect" (monitorLoop env cid n (t ++ [Event.exec (inspectArgs cid)]))
              ≤ countExec "inspect" (t ++ [Event.exec (inspectArgs cid)]) + n := ih _
            _ ≤ countExec "inspect" t + (n + 1) := by
                simp [countExec_append, inspectArgs]; omega

lemma monitorLoop_countExec_ne (env : Env) (cid : String) (h : String)
    (hne : h ≠ "inspect") :
    ∀ (fuel : Nat) (t : Trace),
      countExec h (monitorLoop env cid fuel t) = countExec h t := by
  intro fuel
  induction fuel with
  | zero => intro t; simp [monitorLoop]
  | succ n ih =>
    intro t
    simp only [monitorLoop]
    split
    case h_1 => simp [countExec_append, inspectArgs, Ne.symm hne]
    case h_2 =>
      split
      case isTrue => simp [countExec_append, inspectArgs, Ne.symm hne]
      case isFalse =>
        split
        case isTrue => simp [countExec_append, inspectArgs, Ne.symm hne]
        case isFalse => rw [ih]; simp [countExec_append, inspectArgs, Ne.symm hne]

lemma monitorLoop_failedMsgs (env : Env) (cid : String) :
    ∀ (fuel : Nat) (t : Trace), failedMsgs (monitorLoop env cid fuel t) = failedMsgs t := by
  intro fuel
  induction fuel with
  | zero => intro t; simp [monitorLoop]
  | succ n ih =>
    intro t
    simp only [monitorLoop]
    split
    case h_1 => simp
    case h_2 =>
      split
      case isTrue => simp
      case isFalse =>
        split
        case isTrue => simp
        case isFalse => rw [ih]; simp

end IndexB

namespace IndexB

lemma monitorContainer_countExec_inspect (env : Env) (cid : String) (t : Trace) :
    countExec "inspect" (monitorContainer env cid t).1 ≤ countExec "inspect" t + 30 := by
  simp only [monitorContainer]
  split <;>
    simpa [countExec_append] using monitorLoop_countExec_inspect env cid 30 t

lemma monitorContainer_countExec_logs (env : Env) (cid : String) (t : Trace) :
    countExec "logs" (monitorContainer env cid t).1 = countExec "logs" t + 1 := by
  simp only [monitorContainer]
  have hloop := monitorLoop_countExec_ne env cid "logs" (by decide) 30 t
  split <;> simp_all [countExec_append]

lemma monitorContainer_countExec_ne (env : Env) (cid : String) (t : Trace) (h : String)
    (h1 : h ≠ "inspect") (h2 : h ≠ "logs") :
    countExec h (monitorContainer env cid t).1 = countExec h t := by
  simp only [monitorContainer]
  have hloop := monitorLoop_countExec_ne env cid h h1 30 t
  split <;> simp_all [countExec_append, Ne.symm h2]

lemma monitorContainer_failedMsgs (env : Env) (cid : String) (t : Trace) :
    failedMsgs (monitorContainer env cid t).1 = failedMsgs t := by
  simp only [monitorContainer]
  have hloop := monitorLoop_failedMsgs env cid 30 t
  split <;> simp_all

lemma getOutputFiles_countExec (env : Env) (dir : String) (t : Trace) (h : String) :
    countExec h (getOutputFiles env dir t).1 = countExec h t := by
  simp only [getOutputFiles]
  split <;> simp_all [countExec_append]

lemma getOutputFiles_failedMsgs (env : Env) (dir : String) (t : Trace) :
    failedMsgs (getOutputFiles env dir t).1 = failedMsgs t := by
  simp only [getOutputFiles]
  split <;> simp_all

lemma getContainerLogs_countExec_logs (env : Env) (cid : String) (t : Trace) :
    countExec "logs" (getContainerLogs env cid t).1 = countExec "logs" t + 1 := by
  simp only [getContainerLogs]
  split <;> simp [countExec_append]

lemma getContainerLogs_countExec_ne (env : Env) (cid : String) (t : Trace) (h : String)
    (h2 : h ≠ "logs") :
    countExec h (getContainerLogs env cid t).1 = countExec h t := by
  simp only [getContainerLogs]
  split <;> simp [countExec_append, Ne.symm h2]

lemma getContainerLogs_failedMsgs (env : Env) (cid : String) (t : Trace) :
    failedMsgs (getContainerLogs env cid t).1 = failedMsgs t := by
  simp only [getContainerLogs]
  split <;> simp

/-- The `finally` block never emits `setFailed`: a cleanup failure is reported
only as a warning. -/
lemma cleanupContainer_failedMsgs (env : Env) (t : Trace) :
    failedMsgs (cleanupContainer env t) = failedMsgs t := by
  simp only [cleanupContainer]
  split
  · simp
  · split <;> simp

/-- The `finally` block issues the `docker stop` call exactly once. -/
lemma cleanupContainer_countExec_stop (env : Env) (t : Trace) :
    countExec "stop" (cleanupContainer env t) = countExec "stop" t + 1 := by
  simp only [cleanupContainer]
  split
  · simp [countExec_append]
  · split <;> simp [countExec_append]

lemma cleanupContainer_countExec_rm_le (env : Env) (t : Trace) :
    countExec "rm" (cleanupContainer env t) ≤ countExec "rm" t + 1 := by
  simp only [cleanupContainer]
  split
  · simp [countExec_append]
  · split <;> simp [countExec_append]

/-- When the `docker stop` promise resolves, `docker rm` is issued exactly
once. -/
lemma cleanupContainer_countExec_rm_eq (env : Env) (t : Trace) (c : Nat)
    (hok : (env.execRes (execCount t) ["stop", "roc-test"]).result = Except.ok c) :
    countExec "rm" (cleanupContainer env t) = countExec "rm" t + 1 := by
  simp only [cleanupContainer]
  split
  · simp_all
  · split <;> simp [countExec_append]

lemma cleanupContainer_countExec_ne (env : Env) (t : Trace) (h : String)
    (h1 : h ≠ "stop") (h2 : h ≠ "rm") :
    countExec h (cleanupContainer env t) = countExec h t := by
  simp only [cleanupContainer]
  split
  · simp [countExec_append, Ne.symm h1]
  · split <;> simp [countExec_append, Ne.symm h1, Ne.symm h2]

/-- Cleanup only appends events to the trace it is given. -/
lemma cleanupContainer_append (env : Env) (t : Trace) :
    ∃ r, cleanupContainer env t = t ++ r := by
  simp only [cleanupContainer]
  split
  · exact ⟨_, by rw [List.append_assoc]⟩
  · split
    · exact ⟨_, by rw [List.append_assoc, List.append_assoc]⟩
    · exact ⟨_, by rw [List.append_assoc]⟩

end IndexB

lemma countExec_append_exec (h : String) (t : Trace) (a : List String) :
    countExec h (t ++ [Event.exec a]) = countExec h t + a.head?.toList.count h := by
  cases a <;> simp [countExec, List.count_append, List.count_cons]

lemma countExec_exec_cons_head (h : String) (a : List String) (t : Trace) :
    countExec h (Event.exec a :: t) = countExec h t + a.head?.toList.count h := by
  cases a <;> simp [countExec, List.count_cons]

namespace IndexB

lemma mainFlow_shape (env : Env) :
    countExec "run" (mainFlow env).1 ≤ 1 ∧
    countExec "ps" (mainFlow env).1 ≤ 1 ∧
    countExec "inspect" (mainFlow env).1 ≤ 30 ∧
    countExec "logs" (mainFlow env).1 ≤ 2 ∧
    countExec "stop" (mainFlow env).1 = 0 ∧
    countExec "rm" (mainFlow env).1 = 0 ∧
    failedMsgs (mainFlow env).1 = [] := by
  have hin : ∀ cid t, countExec "inspect" (monitorContainer env cid t).1
      ≤ countExec "inspect" t + 30 := fun cid t => monitorContainer_countExec_inspect env cid t
  have hmo : ∀ h cid t, h ≠ "inspect" → h ≠ "logs" →
      countExec h (monitorContainer env cid t).1 = countExec h t :=
    fun h cid t h1 h2 => monitorContainer_countExec_ne env cid t h h1 h2
  simp only [mainFlow]
  repeat' split
  all_goals
    simp_all [countExec_append, countExec_append_exec, checkSsl_countExec, checkSsl_failedMsgs,
      monitorContainer_countExec_logs, monitorContainer_failedMsgs,
      getOutputFiles_countExec, getOutputFiles_failedMsgs,
      getContainerLogs_countExec_logs, getContainerLogs_countExec_ne, getContainerLogs_failedMsgs,
      dockerArgs_head, List.count_cons, countExec_exec_cons_head]
  all_goals refine le_trans (monitorContainer_countExec_inspect env _ _) ?_
  all_goals
    simp [countExec_append, checkSsl_countExec, countExec_exec_cons_head, dockerArgs_head,
      List.count_cons]

end IndexB

namespace IndexB

lemma monitorLoop_early_stop (env : Env) (cid : String) :
    ∀ (k fuel : Nat) (t : Trace), k < fuel →
      (∀ j, j < k → inspectResultOk env cid (execCount t + j) ∧
        ¬ terminalStatus (inspectStatus env cid (execCount t + j))) →
      inspectResultOk env cid (execCount t + k) →
      terminalStatus (inspectStatus env cid (execCount t + k)) →
      countExec "inspect" (monitorLoop env cid fuel t) = countExec "inspect" t + (k + 1) := by
  intro k
  induction k with
  | zero =>
    intro fuel t hk hprev hok hterm
    cases fuel with
    | zero => omega
    | succ n =>
      obtain ⟨c, hc⟩ := hok
      simp only [Nat.add_zero] at hc hterm
      simp only [inspectStatus] at hterm
      simp only [monitorLoop, hc]
      rcases hterm with hrun | hexit
      · rw [if_pos hrun]
        simp [countExec_append, inspectArgs]
      · rw [if_neg (by rw [hexit]; decide), if_pos hexit]
        simp [countExec_append, inspectArgs]
  | succ k ih =>
    intro fuel t hk hprev hok hterm
    cases fuel with
    | zero => omega
    | succ n =>
      obtain ⟨⟨c0, hc0⟩, hnt0⟩ := hprev 0 (Nat.succ_pos k)
      simp only [Nat.add_zero] at hc0 hnt0
      simp only [inspectStatus, terminalStatus] at hnt0
      push_neg at hnt0
      obtain ⟨hnr, hne⟩ := hnt0
      simp only [monitorLoop, hc0]
      rw [if_neg hnr, if_neg hne]
      have hct : execCount (t ++ [Event.exec (inspectArgs cid)]) = execCount t + 1 := by simp
      have hprev1 : ∀ j, j < k →
          inspectResultOk env cid (execCount (t ++ [Event.exec (inspectArgs cid)]) + j) ∧
          ¬ terminalStatus
            (inspectStatus env cid (execCount (t ++ [Event.exec (inspectArgs cid)]) + j)) := by
        intro j hj
        have h2 := hprev (j + 1) (by omega)
        have he : execCount t + (j + 1) = execCount (t ++ [Event.exec (inspectArgs cid)]) + j := by
          rw [hct]; omega
        rwa [he] at h2
      have hok1 :
          inspectResultOk env cid (execCount (t ++ [Event.exec (inspectArgs cid)]) + k) := by
        have he : execCount t + (k + 1) = execCount (t ++ [Event.exec (inspectArgs cid)]) + k := by
          rw [hct]; omega
        rwa [he] at hok
      have hterm1 : terminalStatus
          (inspectStatus env cid (execCount (t ++ [Event.exec (inspectArgs cid)]) + k)) := by
        have he : execCount t + (k + 1) = execCount (t ++ [Event.exec (inspectArgs cid)]) + k := by
          rw [hct]; omega
        rwa [he] at hterm
      rw [ih n (t ++ [Event.exec (inspectArgs cid)]) (by omega) hprev1 hok1 hterm1]
      simp [countExec_append, inspectArgs]
      omega

end IndexB

/-- C5: the monitor loop of the full-flow variant performs at most 30 status
inspections, and when the inspections before `k` all resolve with a
non-terminal status while the `k`-th resolves with the terminal status
`running` or `exited`, it stops right there, after exactly `k + 1`
inspections. -/
theorem c5_monitor_bound (env : Env) (cid : String) :
    countExec "inspect" (IndexB.monitorContainer env cid []).1 ≤ 30 ∧
    (∀ k, k < 30 →
      (∀ j, j < k → IndexB.inspectResultOk env cid j ∧
        ¬ IndexB.terminalStatus (IndexB.inspectStatus env cid j)) →
      IndexB.inspectResultOk env cid k →
      IndexB.terminalStatus (IndexB.inspectStatus env cid k) →
      countExec "inspect" (IndexB.monitorContainer env cid []).1 = k + 1) := by
  constructor
  · simpa using IndexB.monitorContainer_countExec_inspect env cid []
  · intro k hk hprev hok hterm
    have hloop := IndexB.monitorLoop_early_stop env cid k 30 [] hk
      (by simpa using hprev) (by simpa using hok) (by simpa using hterm)
    simp only [IndexB.monitorContainer]
    split <;> simp_all [countExec_append]

/-- Witness for C5: with polls answering `created` then `running`, the
monitor stops after exactly two inspections. -/
theorem c5_monitor_bound_witness :
    countExec "inspect" (IndexB.monitorContainer envSecondRunning "c" []).1 = 2 :=
  (c5_monitor_bound envSecondRunning "c").2 1 (by decide)
    (by
      intro j hj
      interval_cases j
      refine ⟨⟨0, rfl⟩, ?_⟩
      intro h
      rcases h with h | h
      · exact absurd h (by decide)
      · exact absurd h (by decide))
    ⟨0, rfl⟩ (Or.inl rfl)

namespace IndexB

lemma preCleanup_countExec (env : Env) (h : String) :
    countExec h (preCleanup env) = countExec h (mainFlow env).1 := by
  simp only [preCleanup]
  split
  all_goals rename_i heq
  · rw [heq]
  · rw [heq]; simp [countExec_append]

end IndexB

/-- C1 counterexample: in a run where every docker invocation rejects (for
example the docker binary is missing), `cleanupContainer` issues the stop
call but its catch skips the remove call, so `docker rm` is invoked zero
times, not exactly once. -/
theorem c1_counterexample :
    countExec "stop" (IndexB.run envAllErr) = 1 ∧
    countExec "rm" (IndexB.run envAllErr) = 0 := by decide

/-- C1 amended: cleanup runs exactly once per full-flow run — the stop call
is issued exactly once in every run, the remove call at most once, and
exactly once whenever the stop call itself resolves; and cleanup never adds a
`setFailed`, so the failure reported to the caller is exactly the primary one
recorded before cleanup. -/
theorem c1_cleanup_once (env : Env) :
    countExec "stop" (IndexB.run env) = 1 ∧
    countExec "rm" (IndexB.run env) ≤ 1 ∧
    (∀ c, (env.execRes (execCount (IndexB.preCleanup env)) ["stop", "roc-test"]).result
        = Except.ok c → countExec "rm" (IndexB.run env) = 1) ∧
    failedMsgs (IndexB.run env) = failedMsgs (IndexB.preCleanup env) := by
  have hshape := IndexB.mainFlow_shape env
  have hstop : countExec "stop" (IndexB.preCleanup env) = 0 := by
    rw [IndexB.preCleanup_countExec]; exact hshape.2.2.2.2.1
  have hrm : countExec "rm" (IndexB.preCleanup env) = 0 := by
    rw [IndexB.preCleanup_countExec]; exact hshape.2.2.2.2.2.1
  refine ⟨?_, ?_, ?_, ?_⟩
  · rw [IndexB.run, IndexB.cleanupContainer_countExec_stop, hstop]
  · rw [IndexB.run]
    have := IndexB.cleanupContainer_countExec_rm_le env (IndexB.preCleanup env)
    omega
  · intro c hok
    rw [IndexB.run, IndexB.cleanupContainer_countExec_rm_eq env _ c hok, hrm]
  · rw [IndexB.run, IndexB.cleanupContainer_failedMsgs]

/-- Witness for C1 amended: on an all-successful run both cleanup calls
happen exactly once. -/
theorem c1_cleanup_once_witness :
    countExec "stop" (IndexB.run envPoll) = 1 ∧ countExec "rm" (IndexB.run envPoll) = 1 :=
  ⟨(c1_cleanup_once envPoll).1, (c1_cleanup_once envPoll).2.2.1 0 rfl⟩

/-- C6 counterexample: with a container that stays in status `created`, a
single full-flow run issues the `docker inspect` invocation thirty times and
the `docker logs` invocation twice — not exactly once each. -/
theorem c6_counterexample :
    countExec "inspect" (IndexB.run envPoll) = 30 ∧
    countExec "logs" (IndexB.run envPoll) = 2 := by decide

namespace Part000

lemma dockerRunCmd_getElem_one (n ho hc e i su ak : String) :
    (dockerRunCmd n ho hc e i su ak)[1]? = some "run" := by
  simp only [dockerRunCmd]
  simp [List.filter_cons, List.cons_append]

lemma dockerRunCmd_tail_head (n ho hc e i su ak : String) :
    (dockerRunCmd n ho hc e i su ak).tail.head? = some "run" := by
  simp only [dockerRunCmd]
  simp [List.filter_cons, List.cons_append]

lemma afterLaunch_countExec_run (env : Env) (n d : String) (t : Trace) :
    countExec "run" (afterLaunch env n d t).1 = countExec "run" t := by
  simp only [afterLaunch]
  repeat' split
  all_goals simp [countExec_append]

lemma afterLaunch_countExec_le (env : Env) (n d : String) (t : Trace) (h : String) :
    countExec h (afterLaunch env n d t).1 ≤ countExec h t + 2 := by
  simp only [afterLaunch]
  repeat' split
  all_goals simp only [countExec_append, countExec_exec_cons, countExec_setOutput_cons,
    countExec_nil]
  all_goals repeat' split
  all_goals subst_vars
  all_goals simp_all

lemma afterLaunch_failedMsgs (env : Env) (n d : String) (t : Trace) :
    failedMsgs (afterLaunch env n d t).1 = failedMsgs t := by
  simp only [afterLaunch]
  repeat' split
  all_goals simp

lemma afterLaunch_filter_isWrite (env : Env) (n d : String) (t : Trace) :
    (afterLaunch env n d t).1.filter isWrite = t.filter isWrite := by
  simp only [afterLaunch]
  repeat' split
  all_goals simp [List.filter_append, isWrite]

lemma run_countExec_run (env : Env) : countExec "run" (Part000.run env) ≤ 1 := by
  simp only [Part000.run]
  repeat' split
  all_goals
    simp [countExec_append, afterLaunch_countExec_run, countExec_exec_cons_head,
      dockerRunCmd_tail_head, dockerRunCmd_getElem_one]

lemma run_countExec_exec (env : Env) : countExec "exec" (Part000.run env) ≤ 2 := by
  simp only [Part000.run]
  repeat' split
  all_goals
    try simp [countExec_append, countExec_exec_cons_head, dockerRunCmd_tail_head,
      dockerRunCmd_getElem_one]
  all_goals
    refine le_trans (Nat.le_of_eq (by first | simp [countExec_append] | rfl)) ?_
  all_goals
    refine le_trans (afterLaunch_countExec_le env _ _ _ _) ?_
  all_goals
    simp [countExec_append, countExec_exec_cons_head, dockerRunCmd_tail_head,
      dockerRunCmd_getElem_one]

lemma run_countExec_logs (env : Env) : countExec "logs" (Part000.run env) ≤ 2 := by
  simp only [Part000.run]
  repeat' split
  all_goals
    try simp [countExec_append, countExec_exec_cons_head, dockerRunCmd_tail_head,
      dockerRunCmd_getElem_one]
  all_goals
    refine le_trans (Nat.le_of_eq (by first | simp [countExec_append] | rfl)) ?_
  all_goals
    refine le_trans (afterLaunch_countExec_le env _ _ _ _) ?_
  all_goals
    simp [countExec_append, countExec_exec_cons_head, dockerRunCmd_tail_head,
      dockerRunCmd_getElem_one]

end Part000

namespace IndexA

lemma run_execCount (env : Env) : execCount (IndexA.run env) ≤ 1 := by
  simp only [IndexA.run]
  repeat' split
  all_goals simp
end IndexA

/-- C6 amended: nothing is ever retried, but several invocations recur by
design. In every full-flow run the launch and the `ps` lookup happen at most
once, status inspection is polled at most 30 times, `docker logs` is issued
at most twice (once after monitoring, once for log capture), and cleanup
issues `stop` exactly once and `rm` at most once. The launch-only variant
issues at most one external invocation in total, and the traffic variant
issues the launch at most once, `docker exec` at most twice and
`docker logs` at most twice. -/
theorem c6_no_retry (env : Env) :
    countExec "run" (IndexB.run env) ≤ 1 ∧
    countExec "ps" (IndexB.run env) ≤ 1 ∧
    countExec "inspect" (IndexB.run env) ≤ 30 ∧
    countExec "logs" (IndexB.run env) ≤ 2 ∧
    countExec "stop" (IndexB.run env) = 1 ∧
    countExec "rm" (IndexB.run env) ≤ 1 ∧
    execCount (IndexA.run env) ≤ 1 ∧
    countExec "run" (Part000.run env) ≤ 1 ∧
    countExec "exec" (Part000.run env) ≤ 2 ∧
    countExec "logs" (Part000.run env) ≤ 2 := by
  have hshape := IndexB.mainFlow_shape env
  have hpre := IndexB.preCleanup_countExec env
  have hne : ∀ h, h ≠ "stop" → h ≠ "rm" →
      countExec h (IndexB.run env) = countExec h (IndexB.preCleanup env) := by
    intro h h1 h2
    rw [IndexB.run, IndexB.cleanupContainer_countExec_ne env _ h h1 h2]
  refine ⟨?_, ?_, ?_, ?_, ?_, ?_, IndexA.run_execCount env, Part000.run_countExec_run env,
    Part000.run_countExec_exec env, Part000.run_countExec_logs env⟩
  · rw [hne "run" (by decide) (by decide), hpre]; exact hshape.1
  · rw [hne "ps" (by decide) (by decide), hpre]; exact hshape.2.1
  · rw [hne "inspect" (by decide) (by decide), hpre]; exact hshape.2.2.1
  · rw [hne "logs" (by decide) (by decide), hpre]; exact hshape.2.2.2.1
  · rw [IndexB.run, IndexB.cleanupContainer_countExec_stop, hpre]
    rw [hshape.2.2.2.2.1]
  · rw [IndexB.run]
    have h1 := IndexB.cleanupContainer_countExec_rm_le env (IndexB.preCleanup env)
    have h2 : countExec "rm" (IndexB.preCleanup env) = 0 := by
      rw [hpre]; exact hshape.2.2.2.2.2.1
    omega

namespace IndexA

lemma launch_run_missing (env : Env)
    (h : env.inputs "patterns_yaml" = "" ∨ env.inputs "docker_image" = "" ∨
      env.inputs "server_url" = "" ∨ env.inputs "api_key" = "") :
    ∃ m, IndexA.run env = [Event.setFailed m] := by
  simp only [IndexA.run]
  cases hq1 : requiredInput env "patterns_yaml" with
  | error m => exact ⟨m, rfl⟩
  | ok v1 =>
    cases hq2 : requiredInput env "docker_image" with
    | error m => exact ⟨m, rfl⟩
    | ok v2 =>
      cases hq3 : requiredInput env "server_url" with
      | error m => exact ⟨m, rfl⟩
      | ok v3 =>
        cases hq4 : requiredInput env "api_key" with
        | error m => exact ⟨m, rfl⟩
        | ok v4 =>
          exfalso
          rcases h with h | h | h | h
          · simp [requiredInput, h] at hq1
          · simp [requiredInput, h] at hq2
          · simp [requiredInput, h] at hq3
          · simp [requiredInput, h] at hq4

end IndexA

namespace Part000

lemma traffic_run_missing (env : Env)
    (h : env.inputs "patterns_yaml" = "" ∨ env.inputs "docker_image" = "" ∨
      env.inputs "server_url" = "" ∨ env.inputs "api_key" = "") :
    ∃ m, Part000.run env = [Event.setFailed m] := by
  simp only [Part000.run]
  cases hq1 : requiredInput env "patterns_yaml" with
  | error m => exact ⟨m, rfl⟩
  | ok v1 =>
    cases hq2 : requiredInput env "docker_image" with
    | error m => exact ⟨m, rfl⟩
    | ok v2 =>
      cases hq3 : requiredInput env "server_url" with
      | error m => exact ⟨m, rfl⟩
      | ok v3 =>
        cases hq4 : requiredInput env "api_key" with
        | error m => exact ⟨m, rfl⟩
        | ok v4 =>
          exfalso
          rcases h with h | h | h | h
          · simp [requiredInput, h] at hq1
          · simp [requiredInput, h] at hq2
          · simp [requiredInput, h] at hq3
          · simp [requiredInput, h] at hq4

end Part000

namespace IndexB

lemma mainFlow_missing (env : Env)
    (h : env.inputs "server-url" = "" ∨ env.inputs "api-key" = "" ∨
      env.inputs "patterns" = "") :
    ∃ m, mainFlow env = ([], Except.error m) := by
  simp only [mainFlow]
  cases hq1 : requiredInput env "server-url" with
  | error m => exact ⟨m, rfl⟩
  | ok v1 =>
    cases hq2 : requiredInput env "api-key" with
    | error m => exact ⟨m, rfl⟩
    | ok v2 =>
      cases hq3 : requiredInput env "patterns" with
      | error m => exact ⟨m, rfl⟩
      | ok v3 =>
        exfalso
        rcases h with h | h | h
        · simp [requiredInput, h] at hq1
        · simp [requiredInput, h] at hq2
        · simp [requiredInput, h] at hq3

end IndexB

/-- C3: when a required input is absent, each variant fails before issuing
any external invocation. The launch-only and traffic variants produce a
single `setFailed` event and nothing else; the full-flow variant records the
failure as the very first event of its trace, reports exactly that failure,
and issues no launch, `ps`, `inspect` or `logs` invocation (only the
unconditional cleanup `stop`/`rm` follow the failure). -/
theorem c3_missing_inputs (env : Env) :
    ((env.inputs "patterns_yaml" = "" ∨ env.inputs "docker_image" = "" ∨
        env.inputs "server_url" = "" ∨ env.inputs "api_key" = "") →
      (∃ m, IndexA.run env = [Event.setFailed m]) ∧
      (∃ m, Part000.run env = [Event.setFailed m])) ∧
    ((env.inputs "server-url" = "" ∨ env.inputs "api-key" = "" ∨
        env.inputs "patterns" = "") →
      ∃ m, (IndexB.run env).head? = some (Event.setFailed m) ∧
        failedMsgs (IndexB.run env) = [m] ∧
        countExec "run" (IndexB.run env) = 0 ∧
        countExec "ps" (IndexB.run env) = 0 ∧
        countExec "inspect" (IndexB.run env) = 0 ∧
        countExec "logs" (IndexB.run env) = 0) := by
  constructor
  · intro h
    exact ⟨IndexA.launch_run_missing env h, Part000.traffic_run_missing env h⟩
  · intro h
    obtain ⟨m, hm⟩ := IndexB.mainFlow_missing env h
    have hpre : IndexB.preCleanup env = [Event.setFailed m] := by
      simp [IndexB.preCleanup, hm]
    have hcount : ∀ hd, hd ≠ "stop" → hd ≠ "rm" →
        countExec hd (IndexB.run env) = 0 := by
      intro hd h1 h2
      rw [IndexB.run, IndexB.cleanupContainer_countExec_ne env _ hd h1 h2, hpre]
      simp
    refine ⟨m, ?_, ?_, hcount "run" (by decide) (by decide),
      hcount "ps" (by decide) (by decide), hcount "inspect" (by decide) (by decide),
      hcount "logs" (by decide) (by decide)⟩
    · obtain ⟨r, hr⟩ := IndexB.cleanupContainer_append env (IndexB.preCleanup env)
      rw [IndexB.run, hr, hpre]
      rfl
    · rw [IndexB.run, IndexB.cleanupContainer_failedMsgs, hpre]
      rfl

/-- Witness for C3 at an environment with no inputs: all three variants fail
without issuing any main-flow invocation. -/
theorem c3_missing_inputs_witness :
    ((∃ m, IndexA.run envAllErr = [Event.setFailed m]) ∧
      (∃ m, Part000.run envAllErr = [Event.setFailed m])) ∧
    (∃ m, (IndexB.run envAllErr).head? = some (Event.setFailed m) ∧
      failedMsgs (IndexB.run envAllErr) = [m] ∧
      countExec "run" (IndexB.run envAllErr) = 0 ∧
      countExec "ps" (IndexB.run envAllErr) = 0 ∧
      countExec "inspect" (IndexB.run envAllErr) = 0 ∧
      countExec "logs" (IndexB.run envAllErr) = 0) :=
  ⟨(c3_missing_inputs envAllErr).1 (Or.inl rfl),
    (c3_missing_inputs envAllErr).2 (Or.inl rfl)⟩

/-- C4 counterexample: with the patterns input `"a: 1\n"` (a YAML document
with a trailing newline, as workflow block scalars produce), the staged file
contains `"a: 1"` — `core.getInput` strips surrounding whitespace before the
verbatim write, so the staged content is not byte-for-byte the supplied
input. -/
theorem c4_counterexample :
    (IndexA.run envHappyA).filter isWrite
        = [Event.write "/ws/roc-config-action/pattern.yaml" "a: 1"] ∧
    envHappyA.inputs "patterns_yaml" = "a: 1\n" ∧
    (IndexA.run envHappyA).filter isWrite
        ≠ [Event.write "/ws/roc-config-action/pattern.yaml"
            (envHappyA.inputs "patterns_yaml")] := by
  decide

/-- C4 amended: whenever staging succeeds, both launch-only variants perform
exactly one file write, to `<workspace>/roc-config-action/pattern.yaml`,
whose content is exactly the supplied patterns input after trimming
surrounding whitespace (the write itself is verbatim and overwrites prior
content; inputs with no surrounding whitespace round-trip byte for byte). -/
theorem c4_pattern_roundtrip (env : Env) (w : String)
    (h1 : env.inputs "patterns_yaml" ≠ "") (h2 : env.inputs "docker_image" ≠ "")
    (h3 : env.inputs "server_url" ≠ "") (h4 : env.inputs "api_key" ≠ "")
    (hws : env.workspace = some w)
    (hed : ∀ p, env.ensureDir p = Except.ok ())
    (hwf : ∀ p, env.writeFile p = Except.ok ()) :
    (IndexA.run env).filter isWrite
        = [Event.write (pathJoin (pathJoin w "roc-config-action") "pattern.yaml")
            (jsTrim (env.inputs "patterns_yaml"))] ∧
    (Part000.run env).filter isWrite
        = [Event.write (pathJoin (pathJoin w "roc-config-action") "pattern.yaml")
            (jsTrim (env.inputs "patterns_yaml"))] := by
  have hq1 : requiredInput env "patterns_yaml"
      = Except.ok (jsTrim (env.inputs "patterns_yaml")) := by simp [requiredInput, h1]
  have hq2 : requiredInput env "docker_image"
      = Except.ok (jsTrim (env.inputs "docker_image")) := by simp [requiredInput, h2]
  have hq3 : requiredInput env "server_url"
      = Except.ok (jsTrim (env.inputs "server_url")) := by simp [requiredInput, h3]
  have hq4 : requiredInput env "api_key"
      = Except.ok (jsTrim (env.inputs "api_key")) := by simp [requiredInput, h4]
  constructor
  · simp only [IndexA.run, hq1, hq2, hq3, hq4, hws, hed, hwf]
    split
    · simp [isWrite, List.filter_cons, List.filter_append]
    · split <;> simp [isWrite, List.filter_cons, List.filter_append]
  · simp only [Part000.run, hq1, hq2, hq3, hq4, hws, hed, hwf]
    split
    · simp [isWrite, List.filter_cons, List.filter_append]
    · split
      · simp [isWrite, List.filter_cons, List.filter_append]
      · split <;>
          simp [Part000.afterLaunch_filter_isWrite, isWrite, List.filter_cons,
            List.filter_append]

/-- Witness for C4 amended at the happy-path environment. -/
theorem c4_pattern_roundtrip_witness :
    (IndexA.run envHappyA).filter isWrite
        = [Event.write (pathJoin (pathJoin "/ws" "roc-config-action") "pattern.yaml")
            (jsTrim (envHappyA.inputs "patterns_yaml"))] ∧
    (Part000.run envHappyA).filter isWrite
        = [Event.write (pathJoin (pathJoin "/ws" "roc-config-action") "pattern.yaml")
            (jsTrim (envHappyA.inputs "patterns_yaml"))] :=
  c4_pattern_roundtrip envHappyA "/ws" (by decide) (by decide) (by decide) (by decide)
    rfl (fun _ => rfl) (fun _ => rfl)

/-- C8: when the container launch resolves with a nonzero exit code, every
variant aborts and reports exactly that failure: the launch-only and traffic
variants end at the `setFailed` with no output set and only the single launch
invocation issued; the full-flow variant reports the launch failure as its
only failure and issues no `ps`, `inspect` or `logs` invocation afterwards
(only the unconditional cleanup runs). Nothing is retried. -/
theorem c8_nonzero_launch (env : Env) (w : String) (c : Nat)
    (hA1 : env.inputs "patterns_yaml" ≠ "") (hA2 : env.inputs "docker_image" ≠ "")
    (hA3 : env.inputs "server_url" ≠ "") (hA4 : env.inputs "api_key" ≠ "")
    (hB1 : env.inputs "server-url" ≠ "") (hB2 : env.inputs "api-key" ≠ "")
    (hB3 : env.inputs "patterns" ≠ "")
    (hws : env.workspace = some w) (hwne : w ≠ "")
    (hex : ∀ p, env.existsSync p = true)
    (hrf : ∀ p, env.readFile p = Except.ok "")
    (hpe : ∀ p, env.pathExists p = Except.ok true)
    (hed : ∀ p, env.ensureDir p = Except.ok ())
    (hwf : ∀ p, env.writeFile p = Except.ok ())
    (hrun : ∀ a, (env.execRes 0 a).result = Except.ok c)
    (hc : c ≠ 0) :
    ((IndexA.run env).getLast?
        = some (Event.setFailed ("Docker run failed with exit code " ++ toString c)) ∧
      failedMsgs (IndexA.run env) = ["Docker run failed with exit code " ++ toString c] ∧
      execCount (IndexA.run env) = 1 ∧
      (∀ k v, Event.setOutput k v ∉ IndexA.run env)) ∧
    ((Part000.run env).getLast?
        = some (Event.setFailed ("Docker run failed with exit code " ++ toString c)) ∧
      failedMsgs (Part000.run env) = ["Docker run failed with exit code " ++ toString c] ∧
      execCount (Part000.run env) = 1 ∧
      (∀ k v, Event.setOutput k v ∉ Part000.run env)) ∧
    (failedMsgs (IndexB.run env)
        = ["Failed to start ROC container. Exit code: " ++ toString c] ∧
      countExec "run" (IndexB.run env) = 1 ∧
      countExec "ps" (IndexB.run env) = 0 ∧
      countExec "inspect" (IndexB.run env) = 0 ∧
      countExec "logs" (IndexB.run env) = 0) := by
  have hq1 : requiredInput env "patterns_yaml"
      = Except.ok (jsTrim (env.inputs "patterns_yaml")) := by simp [requiredInput, hA1]
  have hq2 : requiredInput env "docker_image"
      = Except.ok (jsTrim (env.inputs "docker_image")) := by simp [requiredInput, hA2]
  have hq3 : requiredInput env "server_url"
      = Except.ok (jsTrim (env.inputs "server_url")) := by simp [requiredInput, hA3]
  have hq4 : requiredInput env "api_key"
      = Except.ok (jsTrim (env.inputs "api_key")) := by simp [requiredInput, hA4]
  have hp1 : requiredInput env "server-url"
      = Except.ok (jsTrim (env.inputs "server-url")) := by simp [requiredInput, hB1]
  have hp2 : requiredInput env "api-key"
      = Except.ok (jsTrim (env.inputs "api-key")) := by simp [requiredInput, hB2]
  have hp3 : requiredInput env "patterns"
      = Except.ok (jsTrim (env.inputs "patterns")) := by simp [requiredInput, hB3]
  have hA : IndexA.run env
      = [Event.write (pathJoin (pathJoin w "roc-config-action") "pattern.yaml")
            (jsTrim (env.inputs "patterns_yaml")),
          Event.exec ((IndexA.dockerRunCmd
            (optionalInput env "libssl_host_path" "/lib/x86_64-linux-gnu/libssl.so.3")
            (optionalInput env "libcrypto_host_path" "/lib/x86_64-linux-gnu/libcrypto.so.3")
            (optionalInput env "container_name" "roc-action-container")
            (pathJoin w (jsReplaceOnce
              (optionalInput env "output_dir_host_path" "./roc-action-output") "./" ""))
            (pathJoin w "roc-config-action")
            (optionalInput env "extra_docker_args" "")
            (jsTrim (env.inputs "docker_image")) (jsTrim (env.inputs "server_url"))
            (jsTrim (env.inputs "api_key"))).drop 1),
          Event.setFailed ("Docker run failed with exit code " ++ toString c)] := by
    simp [IndexA.run, hq1, hq2, hq3, hq4, hws, hed, hwf, hrun, hc]
  have hP : Part000.run env
      = [Event.write (pathJoin (pathJoin w "roc-config-action") "pattern.yaml")
            (jsTrim (env.inputs "patterns_yaml")),
          Event.exec ((Part000.dockerRunCmd
            (optionalInput env "container_name" "roc-action-container")
            (pathJoin w (jsReplaceOnce
              (optionalInput env "output_dir_host_path" "./roc-action-output") "./" ""))
            (pathJoin w "roc-config-action")
            (optionalInput env "extra_docker_args" "")
            (jsTrim (env.inputs "docker_image")) (jsTrim (env.inputs "server_url"))
            (jsTrim (env.inputs "api_key"))).drop 1),
          Event.setFailed ("Docker run failed with exit code " ++ toString c)] := by
    simp [Part000.run, hq1, hq2, hq3, hq4, hws, hed, hwf, hrun, hc]
  have hpre : IndexB.preCleanup env
      = [Event.exec (IndexB.dockerArgs w
            (optionalInput env "output-dir" "roc-output")
            (optionalInput env "config-dir" "roc-config")
            (optionalInput env "docker-image" "hanshal785/roc:v5")
            (jsTrim (env.inputs "server-url")) (jsTrim (env.inputs "api-key"))
            (jsTrim (env.inputs "patterns"))
            (IndexB.sslArgsOf true (optionalInput env "ssl-lib-path" "/lib/x86_64-linux-gnu")
              (optionalInput env "ssl-lib-version" "3"))
            (optionalInput env "additional-args" "")),
          Event.setFailed ("Failed to start ROC container. Exit code: " ++ toString c)] := by
    simp [IndexB.preCleanup, IndexB.mainFlow, IndexB.checkSslLibraries, hp1, hp2, hp3,
      hws, hwne, hex, hrf, hpe, hed, hrun, hc]
  refine ⟨?_, ?_, ?_⟩
  · rw [hA]
    refine ⟨rfl, by simp, by simp, ?_⟩
    intro k v
    simp
  · rw [hP]
    refine ⟨rfl, by simp, by simp, ?_⟩
    intro k v
    simp
  · have hcount : ∀ hd, hd ≠ "stop" → hd ≠ "rm" →
        countExec hd (IndexB.run env) = countExec hd (IndexB.preCleanup env) := by
      intro hd hd1 hd2
      rw [IndexB.run, IndexB.cleanupContainer_countExec_ne env _ hd hd1 hd2]
    refine ⟨?_, ?_, ?_, ?_, ?_⟩
    · rw [IndexB.run, IndexB.cleanupContainer_failedMsgs, hpre]; rfl
    · rw [hcount "run" (by decide) (by decide), hpre]
      simp [countExec_exec_cons_head, IndexB.dockerArgs_head]
    · rw [hcount "ps" (by decide) (by decide), hpre]
      simp [countExec_exec_cons_head, IndexB.dockerArgs_head]
    · rw [hcount "inspect" (by decide) (by decide), hpre]
      simp [countExec_exec_cons_head, IndexB.dockerArgs_head]
    · rw [hcount "logs" (by decide) (by decide), hpre]
      simp [countExec_exec_cons_head, IndexB.dockerArgs_head]

/-- Witness for C8 at an environment whose launch exits with code 1. -/
theorem c8_nonzero_launch_witness :
    failedMsgs (IndexA.run envLaunchFail) = ["Docker run failed with exit code 1"] ∧
    failedMsgs (Part000.run envLaunchFail) = ["Docker run failed with exit code 1"] ∧
    failedMsgs (IndexB.run envLaunchFail) = ["Failed to start ROC container. Exit code: 1"] := by
  have h := c8_nonzero_launch envLaunchFail "/ws" 1 (by decide) (by decide) (by decide)
    (by decide) (by decide) (by decide) (by decide) rfl (by decide) (fun _ => rfl)
    (fun _ => rfl) (fun _ => rfl) (fun _ => rfl) (fun _ => rfl) (fun _ => rfl) (by decide)
  exact ⟨h.1.2.1, h.2.1.2.1, h.2.2.1⟩

set_option maxRecDepth 10000 in
/-- C9 counterexample: in the traffic variant an unreadable output directory
is fatal, not soft — the run ends in `setFailed` with the readdir error and
emits no warning at all (the whole trace is computed below; it contains a
`setFailed` and no `warning` event). -/
theorem c9_counterexample :
    Part000.run envReaddirErr
      = [Event.write "/ws/roc-config-action/pattern.yaml" "a: 1",
          Event.exec ["run", "-d", "--name", "roc-action-container", "--privileged",
            "--pid=host", "--network=host", "-v", "/proc:/proc", "-v", "/sys:/sys",
            "-v", "/lib/x86_64-linux-gnu/libssl.so.3:/usr/lib64/libssl.so.3",
            "-v", "/lib/x86_64-linux-gnu/libcrypto.so.3:/usr/lib64/libcrypto.so.3",
            "-v", "/ws/roc-action-output:/tmp/roc-output",
            "-v", "/ws/roc-config-action:/tmp/roc-config:ro",
            "img", "--server-url", "https://x", "--api-key", "k",
            "--patterns", "/tmp/roc-config/pattern.yaml", "--watch", "/tmp/roc-output"],
          Event.exec ["exec", "roc-action-container", "sh", "-c", Part000.simulateScript],
          Event.exec ["logs", "roc-action-container"],
          Event.exec ["exec", "roc-action-container", "sh", "-c", Part000.moreTrafficScript],
          Event.exec ["logs", "roc-action-container"],
          Event.setFailed "EACCES: permission denied, scandir"] := by
  decide

/-- C9 amended: artifact collection in the full-flow variant fails soft — an
empty output directory yields the empty result with no extra event, and an
unreadable one yields the empty result with a warning, never a failure. (In
the traffic variant, by contrast, an unreadable output directory aborts the
run as a fatal error.) -/
theorem c9_soft_artifacts (env : Env) (dir : String) (t : Trace) :
    (env.readdir dir = Except.ok [] → IndexB.getOutputFiles env dir t = (t, "")) ∧
    (∀ m, env.readdir dir = Except.error m →
      IndexB.getOutputFiles env dir t
        = (t ++ [Event.warning ("Could not read output directory: " ++ m)], "")) := by
  constructor
  · intro h
    simp [IndexB.getOutputFiles, h, jsJoin]
  · intro m h
    simp [IndexB.getOutputFiles, h]

/-- Witness for C9 amended: empty directory and unreadable directory, both
soft. -/
theorem c9_soft_artifacts_witness :
    IndexB.getOutputFiles baseEnv "roc-output" [] = ([], "") ∧
    IndexB.getOutputFiles envReaddirErr "roc-output" []
      = ([Event.warning
            "Could not read output directory: EACCES: permission denied, scandir"], "") :=
  ⟨(c9_soft_artifacts baseEnv "roc-output" []).1 rfl,
    (c9_soft_artifacts envReaddirErr "roc-output" []).2 _ rfl⟩

/-- C2 counterexample: in the full-flow variant the `--patterns` value is
`/tmp/roc-config/<patterns>` — it does not contain the fixed
`/tmp/roc-config/pattern.yaml` path, and changing only the pattern file name
input changes the assembled launch argument list. -/
theorem c2_counterexample :
    "/tmp/roc-config/pattern.yaml"
        ∉ IndexB.dockerArgs "/ws" "roc-output" "roc-config" "img" "u" "k" "custom.yaml" [] "" ∧
    IndexB.dockerArgs "/ws" "roc-output" "roc-config" "img" "u" "k" "custom.yaml" [] ""
      ≠ IndexB.dockerArgs "/ws" "roc-output" "roc-config" "img" "u" "k" "other.yaml" [] "" := by
  decide

/-- C2 amended: the launch-only and traffic variants always end the launch
list with the fixed `--patterns /tmp/roc-config/pattern.yaml --watch
/tmp/roc-output`, for every host-side configuration; the full-flow variant
always contains `--watch /tmp/roc-output` and a `--patterns` value of the
form `/tmp/roc-config/<patterns>`, fixed up to the pattern file name input
and independent of the config/output directory inputs. -/
theorem c2_fixed_paths :
    (∀ l1 l2 n ho hc e i su ak,
      ∃ u, IndexA.dockerRunCmd l1 l2 n ho hc e i su ak
        = u ++ ["--patterns", "/tmp/roc-config/pattern.yaml", "--watch", "/tmp/roc-output"]) ∧
    (∀ n ho hc e i su ak,
      ∃ u, Part000.dockerRunCmd n ho hc e i su ak
        = u ++ ["--patterns", "/tmp/roc-config/pattern.yaml", "--watch", "/tmp/roc-output"]) ∧
    (∀ ws od cd img su ak pat ssl add,
      ∃ u v, IndexB.dockerArgs ws od cd img su ak pat ssl add
        = u ++ ["--patterns", "/tmp/roc-config/" ++ pat, "--watch", "/tmp/roc-output"] ++ v) := by
  refine ⟨?_, ?_, ?_⟩
  · intro l1 l2 n ho hc e i su ak
    refine ⟨List.filter (fun arg => decide (arg ≠ ""))
      (["docker", "run", "-d", "--name", n, "--privileged", "--pid=host", "--network=host",
          "-v", "/proc:/proc", "-v", "/sys:/sys",
          "-v", l1 ++ ":/usr/lib64/libssl.so.3",
          "-v", l2 ++ ":/usr/lib64/libcrypto.so.3",
          "-v", ho ++ ":/tmp/roc-output",
          "-v", hc ++ ":/tmp/roc-config:ro"]
        ++ jsSplitOn ' ' e ++ [i, "--server-url", su, "--api-key", ak]), ?_⟩
    simp only [IndexA.dockerRunCmd]
    rw [show ([i, "--server-url", su, "--api-key", ak, "--patterns",
        "/tmp/roc-config/pattern.yaml", "--watch", "/tmp/roc-output"] : List String)
      = [i, "--server-url", su, "--api-key", ak]
        ++ ["--patterns", "/tmp/roc-config/pattern.yaml", "--watch", "/tmp/roc-output"]
      from rfl]
    rw [← List.append_assoc, List.filter_append]
    rfl
  · intro n ho hc e i su ak
    refine ⟨List.filter (fun arg => decide (arg ≠ ""))
      (["docker", "run", "-d", "--name", n, "--privileged", "--pid=host", "--network=host",
          "-v", "/proc:/proc", "-v", "/sys:/sys",
          "-v", "/lib/x86_64-linux-gnu/libssl.so.3:/usr/lib64/libssl.so.3",
          "-v", "/lib/x86_64-linux-gnu/libcrypto.so.3:/usr/lib64/libcrypto.so.3",
          "-v", ho ++ ":/tmp/roc-output",
          "-v", hc ++ ":/tmp/roc-config:ro"]
        ++ jsSplitOn ' ' e ++ [i, "--server-url", su, "--api-key", ak]), ?_⟩
    simp only [Part000.dockerRunCmd]
    rw [show ([i, "--server-url", su, "--api-key", ak, "--patterns",
        "/tmp/roc-config/pattern.yaml", "--watch", "/tmp/roc-output"] : List String)
      = [i, "--server-url", su, "--api-key", ak]
        ++ ["--patterns", "/tmp/roc-config/pattern.yaml", "--watch", "/tmp/roc-output"]
      from rfl]
    rw [← List.append_assoc, List.filter_append]
    rfl
  · intro ws od cd img su ak pat ssl add
    by_cases hcond : jsTrim add = ""
    · refine ⟨["run", "-d", "--name", "roc-test", "--privileged", "--pid=host",
        "--network=host", "-v", "/proc:/proc", "-v", "/sys:/sys"] ++ ssl
        ++ ["-v", ws ++ "/" ++ od ++ ":/tmp/roc-output",
            "-v", ws ++ "/" ++ cd ++ ":/tmp/roc-config:ro",
            img, "--server-url", su, "--api-key", ak], [], ?_⟩
      simp [IndexB.dockerArgs, hcond]
    · refine ⟨["run", "-d", "--name", "roc-test", "--privileged", "--pid=host",
        "--network=host", "-v", "/proc:/proc", "-v", "/sys:/sys"] ++ ssl
        ++ ["-v", ws ++ "/" ++ od ++ ":/tmp/roc-output",
            "-v", ws ++ "/" ++ cd ++ ":/tmp/roc-config:ro",
            img, "--server-url", su, "--api-key", ak],
        jsSplitOn ' ' (jsTrim add), ?_⟩
      simp [IndexB.dockerArgs, hcond]

/-- C10 counterexample: an `additional-args` value with two consecutive
spaces puts an empty-string argument into the full-flow launch list. -/
theorem c10_counterexample :
    "" ∈ IndexB.dockerArgs "/ws" "roc-output" "roc-config" "img" "u" "k" "p.yaml" [] "a  b" := by
  decide

/-- C10 amended: the launch-only and traffic variants filter empty strings
out of the launch list, so it never contains one, and any extra-args inputs
whose space-split fragments are all empty (in particular the empty and the
all-spaces string) yield identical commands; the full-flow variant yields
the no-extra-args command whenever `additional-args` trims to the empty
string, but it performs no such filtering, so interior runs of spaces
introduce empty-string arguments there. -/
theorem c10_no_empty_args :
    (∀ l1 l2 n ho hc e i su ak, "" ∉ IndexA.dockerRunCmd l1 l2 n ho hc e i su ak) ∧
    (∀ n ho hc e i su ak, "" ∉ Part000.dockerRunCmd n ho hc e i su ak) ∧
    (∀ l1 l2 n ho hc e e2 i su ak, (jsSplitOn ' ' e).all (fun s => s = "") →
      (jsSplitOn ' ' e2).all (fun s => s = "") →
      IndexA.dockerRunCmd l1 l2 n ho hc e i su ak
        = IndexA.dockerRunCmd l1 l2 n ho hc e2 i su ak) ∧
    (∀ n ho hc e e2 i su ak, (jsSplitOn ' ' e).all (fun s => s = "") →
      (jsSplitOn ' ' e2).all (fun s => s = "") →
      Part000.dockerRunCmd n ho hc e i su ak = Part000.dockerRunCmd n ho hc e2 i su ak) ∧
    (∀ ws od cd img su ak pat ssl add, jsTrim add = "" →
      IndexB.dockerArgs ws od cd img su ak pat ssl add
        = IndexB.dockerArgs ws od cd img su ak pat ssl "") := by
  have hnil : ∀ (l : List String), l.all (fun s => s = "") →
      l.filter (fun arg => !decide (arg = "")) = [] := by
    intro l hl
    refine List.filter_eq_nil_iff.mpr ?_
    intro a ha
    have := List.all_eq_true.mp hl a ha
    simp_all
  refine ⟨?_, ?_, ?_, ?_, ?_⟩
  · intro l1 l2 n ho hc e i su ak h
    rw [IndexA.dockerRunCmd] at h
    simp [List.mem_filter] at h
  · intro n ho hc e i su ak h
    rw [Part000.dockerRunCmd] at h
    simp [List.mem_filter] at h
  · intro l1 l2 n ho hc e e2 i su ak he he2
    simp [IndexA.dockerRunCmd, List.filter_cons, List.filter_append, hnil _ he, hnil _ he2]
  · intro n ho hc e e2 i su ak he he2
    simp [Part000.dockerRunCmd, List.filter_cons, List.filter_append, hnil _ he, hnil _ he2]
  · intro ws od cd img su ak pat ssl add h
    simp [IndexB.dockerArgs, h, (by decide : jsTrim "" = "")]

/-- Witness for C10 amended: all-space and empty extra-args inputs build the
same command in each variant. -/
theorem c10_no_empty_args_witness :
    IndexA.dockerRunCmd "l1" "l2" "n" "ho" "hc" "   " "i" "su" "ak"
      = IndexA.dockerRunCmd "l1" "l2" "n" "ho" "hc" "" "i" "su" "ak" ∧
    Part000.dockerRunCmd "n" "ho" "hc" "   " "i" "su" "ak"
      = Part000.dockerRunCmd "n" "ho" "hc" "" "i" "su" "ak" ∧
    IndexB.dockerArgs "/ws" "od" "cd" "img" "su" "ak" "p" [] " "
      = IndexB.dockerArgs "/ws" "od" "cd" "img" "su" "ak" "p" [] "" :=
  ⟨c10_no_empty_args.2.2.1 "l1" "l2" "n" "ho" "hc" "   " "" "i" "su" "ak"
      (by decide) (by decide),
    c10_no_empty_args.2.2.2.1 "n" "ho" "hc" "   " "" "i" "su" "ak" (by decide) (by decide),
    c10_no_empty_args.2.2.2.2 "/ws" "od" "cd" "img" "su" "ak" "p" [] " " (by decide)⟩

section ExecArgsLemmas

@[simp] lemma execArgs_nil : execArgs [] = [] := rfl

@[simp] lemma execArgs_append (s t : Trace) :
    execArgs (s ++ t) = execArgs s ++ execArgs t :=
  List.filterMap_append ..

@[simp] lemma execArgs_exec_cons (a : List String) (t : Trace) :
    execArgs (Event.exec a :: t) = a :: execArgs t := by
  simp [execArgs, List.filterMap_cons]

@[simp] lemma execArgs_write_cons (p c : String) (t : Trace) :
    execArgs (Event.write p c :: t) = execArgs t := by
  simp [execArgs, List.filterMap_cons]

@[simp] lemma execArgs_setFailed_cons (m : String) (t : Trace) :
    execArgs (Event.setFailed m :: t) = execArgs t := by
  simp [execArgs, List.filterMap_cons]

@[simp] lemma execArgs_warning_cons (m : String) (t : Trace) :
    execArgs (Event.warning m :: t) = execArgs t := by
  simp [execArgs, List.filterMap_cons]

@[simp] lemma execArgs_setOutput_cons (k v : String) (t : Trace) :
    execArgs (Event.setOutput k v :: t) = execArgs t := by
  simp [execArgs, List.filterMap_cons]

end ExecArgsLemmas

/-- C7 counterexample: the full-flow variant reads no container-name input at
all — with a `custom-name` input supplied (under either spelling), the run
launches, stops and removes the hardcoded name `roc-test`, addresses status
and log calls by the container id captured from `ps`, and the supplied name
appears in no invocation. -/
theorem c7_counterexample :
    envNamed.inputs "container-name" = "custom-name" ∧
    envNamed.inputs "container_name" = "custom-name" ∧
    (∀ a ∈ execArgs (IndexB.run envNamed), "custom-name" ∉ a) ∧
    ["stop", "roc-test"] ∈ execArgs (IndexB.run envNamed) ∧
    ["rm", "roc-test"] ∈ execArgs (IndexB.run envNamed) ∧
    IndexB.inspectArgs "cid123" ∈ execArgs (IndexB.run envNamed) ∧
    ["logs", "cid123"] ∈ execArgs (IndexB.run envNamed) := by
  decide

/-- C7 amended: only the launch-only and traffic variants treat the container
name as an input with default `roc-action-container`; their launch lists name
the resolved value, and the traffic variant addresses its `docker exec` and
`docker logs` calls with that same resolved name. The full-flow variant
hardcodes `roc-test` in its launch list, and its cleanup stops and removes
exactly `roc-test`. -/
theorem c7_container_name (env : Env) (w : String)
    (hA1 : env.inputs "patterns_yaml" ≠ "") (hA2 : env.inputs "docker_image" ≠ "")
    (hA3 : env.inputs "server_url" ≠ "") (hA4 : env.inputs "api_key" ≠ "")
    (hws : env.workspace = some w)
    (hed : ∀ p, env.ensureDir p = Except.ok ())
    (hwf : ∀ p, env.writeFile p = Except.ok ())
    (hrd : ∀ p, env.readdir p = Except.ok [])
    (hrun : ∀ j a, (env.execRes j a).result = Except.ok 0) :
    (∀ l1 l2 n ho hc e i su ak, n ≠ "" →
      ∃ u v, IndexA.dockerRunCmd l1 l2 n ho hc e i su ak = u ++ ["--name", n] ++ v) ∧
    (∀ n ho hc e i su ak, n ≠ "" →
      ∃ u v, Part000.dockerRunCmd n ho hc e i su ak = u ++ ["--name", n] ++ v) ∧
    (∀ ws2 od cd img su ak pat ssl add,
      ∃ u v, IndexB.dockerArgs ws2 od cd img su ak pat ssl add
        = u ++ ["--name", "roc-test"] ++ v) ∧
    (∀ t, execArgs (IndexB.cleanupContainer env t) = execArgs t ++ [["stop", "roc-test"]] ∨
      execArgs (IndexB.cleanupContainer env t)
        = execArgs t ++ [["stop", "roc-test"], ["rm", "roc-test"]]) ∧
    (["logs", optionalInput env "container_name" "roc-action-container"]
        ∈ execArgs (Part000.run env) ∧
      ["exec", optionalInput env "container_name" "roc-action-container", "sh", "-c",
          Part000.simulateScript] ∈ execArgs (Part000.run env)) := by
  have hq1 : requiredInput env "patterns_yaml"
      = Except.ok (jsTrim (env.inputs "patterns_yaml")) := by simp [requiredInput, hA1]
  have hq2 : requiredInput env "docker_image"
      = Except.ok (jsTrim (env.inputs "docker_image")) := by simp [requiredInput, hA2]
  have hq3 : requiredInput env "server_url"
      = Except.ok (jsTrim (env.inputs "server_url")) := by simp [requiredInput, hA3]
  have hq4 : requiredInput env "api_key"
      = Except.ok (jsTrim (env.inputs "api_key")) := by simp [requiredInput, hA4]
  refine ⟨?_, ?_, ?_, ?_, ?_⟩
  · intro l1 l2 n ho hc e i su ak hn
    refine ⟨["docker", "run", "-d"],
      List.filter (fun arg => !decide (arg = ""))
        (["--privileged", "--pid=host", "--network=host",
            "-v", "/proc:/proc", "-v", "/sys:/sys",
            "-v", l1 ++ ":/usr/lib64/libssl.so.3",
            "-v", l2 ++ ":/usr/lib64/libcrypto.so.3",
            "-v", ho ++ ":/tmp/roc-output",
            "-v", hc ++ ":/tmp/roc-config:ro"]
          ++ jsSplitOn ' ' e
          ++ [i, "--server-url", su, "--api-key", ak,
              "--patterns", "/tmp/roc-config/pattern.yaml", "--watch", "/tmp/roc-output"]), ?_⟩
    simp [IndexA.dockerRunCmd, List.filter_cons, hn]
  · intro n ho hc e i su ak hn
    refine ⟨["docker", "run", "-d"],
      List.filter (fun arg => !decide (arg = ""))
        (["--privileged", "--pid=host", "--network=host",
            "-v", "/proc:/proc", "-v", "/sys:/sys",
            "-v", "/lib/x86_64-linux-gnu/libssl.so.3:/usr/lib64/libssl.so.3",
            "-v", "/lib/x86_64-linux-gnu/libcrypto.so.3:/usr/lib64/libcrypto.so.3",
            "-v", ho ++ ":/tmp/roc-output",
            "-v", hc ++ ":/tmp/roc-config:ro"]
          ++ jsSplitOn ' ' e
          ++ [i, "--server-url", su, "--api-key", ak,
              "--patterns", "/tmp/roc-config/pattern.yaml", "--watch", "/tmp/roc-output"]), ?_⟩
    simp [Part000.dockerRunCmd, List.filter_cons, hn]
  · intro ws2 od cd img su ak pat ssl add
    by_cases hcond : jsTrim add = ""
    · refine ⟨["run", "-d"],
        ["--privileged", "--pid=host", "--network=host", "-v", "/proc:/proc",
          "-v", "/sys:/sys"] ++ ssl
          ++ ["-v", ws2 ++ "/" ++ od ++ ":/tmp/roc-output",
              "-v", ws2 ++ "/" ++ cd ++ ":/tmp/roc-config:ro",
              img, "--server-url", su, "--api-key", ak,
              "--patterns", "/tmp/roc-config/" ++ pat, "--watch", "/tmp/roc-output"], ?_⟩
      simp [IndexB.dockerArgs, hcond]
    · refine ⟨["run", "-d"],
        (["--privileged", "--pid=host", "--network=host", "-v", "/proc:/proc",
          "-v", "/sys:/sys"] ++ ssl
          ++ ["-v", ws2 ++ "/" ++ od ++ ":/tmp/roc-output",
              "-v", ws2 ++ "/" ++ cd ++ ":/tmp/roc-config:ro",
              img, "--server-url", su, "--api-key", ak,
              "--patterns", "/tmp/roc-config/" ++ pat, "--watch", "/tmp/roc-output"])
          ++ jsSplitOn ' ' (jsTrim add), ?_⟩
      simp [IndexB.dockerArgs, hcond]
  · intro t
    simp only [IndexB.cleanupContainer]
    split
    · left
      simp
    · split
      · right
        simp
      · right
        simp
  · have hP : Part000.run env
        = [Event.write (pathJoin (pathJoin w "roc-config-action") "pattern.yaml")
              (jsTrim (env.inputs "patterns_yaml")),
            Event.exec ((Part000.dockerRunCmd
              (optionalInput env "container_name" "roc-action-container")
              (pathJoin w (jsReplaceOnce
                (optionalInput env "output_dir_host_path" "./roc-action-output") "./" ""))
              (pathJoin w "roc-config-action")
              (optionalInput env "extra_docker_args" "")
              (jsTrim (env.inputs "docker_image")) (jsTrim (env.inputs "server_url"))
              (jsTrim (env.inputs "api_key"))).drop 1),
            Event.exec ["exec", optionalInput env "container_name" "roc-action-container",
              "sh", "-c", Part000.simulateScript],
            Event.exec ["logs", optionalInput env "container_name" "roc-action-container"],
            Event.exec ["exec", optionalInput env "container_name" "roc-action-container",
              "sh", "-c", Part000.moreTrafficScript],
            Event.exec ["logs", optionalInput env "container_name" "roc-action-container"],
            Event.setOutput "container_name"
              (optionalInput env "container_name" "roc-action-container")] := by
      simp [Part000.run, Part000.afterLaunch, Part000.printFiles, hq1, hq2, hq3, hq4,
        hws, hed, hwf, hrd, hrun]
    rw [hP]
    constructor
    · simp
    · simp

/-- Witness for C7 amended: on the happy path of the traffic variant, the
default name addresses the logs and traffic calls, and an explicit name
appears after `--name` in a launch list. -/
theorem c7_container_name_witness :
    ["logs", "roc-action-container"] ∈ execArgs (Part000.run envHappyA) ∧
    (∃ u v, IndexA.dockerRunCmd "l1" "l2" "my-name" "ho" "hc" "" "i" "su" "ak"
      = u ++ ["--name", "my-name"] ++ v) := by
  have h := c7_container_name envHappyA "/ws" (by decide) (by decide) (by decide)
    (by decide) rfl (fun _ => rfl) (fun _ => rfl) (fun _ => rfl) (fun _ _ => rfl)
  exact ⟨h.2.2.2.2.1, h.1 "l1" "l2" "my-name" "ho" "hc" "" "i" "su" "ak" (by decide)⟩
